import Mathlib

/-
Verification of the result-tuple wrapper library (src/index.ts).

The library exposes three wrappers sharing one shape:
  to(asyncFn, defaultValue?)       - wraps an async factory
  toSync(fn, defaultValue?)        - wraps a synchronous thunk
  toPromise(promise, defaultValue?)- wraps an already-constructed promise
Each returns a DoResult tuple [Error | null, T | undefined]; a caught
signal is normalized by
  error instanceof Error ? error : new Error(String(error)).

The embedding models JavaScript values to the extent the library observes
them: the instanceof-Error test and the platform stringification String(x).
Stringification of an object can itself raise in JavaScript (an object
whose conversion to a primitive fails, e.g. one with a null prototype or a
throwing toString); the model keeps that possibility, since the catch
blocks contain no inner guard around String.
-/

/-- A canonical failure object (a JavaScript Error instance): a message
plus any extra attached fields, kept as key/value pairs so that identity
preservation of extra data is observable. -/
structure JSError where
  message : String
  extra : List (String × String)
deriving DecidableEq, Repr

/-- JavaScript values as observed by the library: primitives, Error
instances, and plain objects. An object carries an identity tag and the
result its string conversion would produce; toStr = none models an object
whose conversion to a primitive itself raises (e.g. a null-prototype
object or one with a throwing toString). -/
inductive JSValue where
  | undef
  | null
  | bool (b : Bool)
  | num (n : Int)
  | str (s : String)
  | error (e : JSError)
  | obj (id : Nat) (toStr : Option String)
deriving DecidableEq, Repr

/-- The platform stringification String(x). Total on primitives and Error
instances; on an object it yields the object's primitive conversion, or
raises a TypeError when that conversion fails. -/
def jsToString : JSValue → Except JSValue String
  | .undef => .ok "undefined"
  | .null => .ok "null"
  | .bool b => .ok (if b then "true" else "false")
  | .num n => .ok (toString n)
  | .str s => .ok s
  | .error e => .ok (if e.message = "" then "Error" else "Error: " ++ e.message)
  | .obj _ (some s) => .ok s
  | .obj _ none =>
      .error (.error ⟨"Cannot convert object to primitive value", []⟩)

/-- The instanceof Error test of the catch blocks. -/
def isErrorInstance : JSValue → Bool
  | .error _ => true
  | _ => false

/-- The shared normalization step of all three catch blocks:
error instanceof Error ? error : new Error(String(error)).
An Error instance passes through unchanged; anything else is wrapped in a
new Error whose message is String(error). When String(error) itself
raises, that secondary signal propagates (there is no inner guard). -/
def normalizeFailure (raised : JSValue) : Except JSValue JSError :=
  match raised with
  | .error e => .ok e
  | v => (jsToString v).map (fun s => ⟨s, []⟩)

/-- The result tuple [Error | null, T | undefined]: the first slot is
null (none) or an Error, the second is undefined (none) or a T. -/
abbrev DoResult (T : Type) := Option JSError × Option T

/-- Behaviour of an async factory passed to the deferred wrapper: invoking
it either raises synchronously before a promise is obtained, or yields a
promise that settles with a value or a rejection signal. -/
inductive AsyncOutcome (T : Type) where
  | syncThrow (v : JSValue)
  | resolve (t : T)
  | reject (v : JSValue)
deriving DecidableEq, Repr

/-- The outcome observed at the await point of the deferred wrapper: a
synchronous raise during invocation and a later rejection both surface as
the same caught signal. -/
def runAsync {T : Type} : AsyncOutcome T → Except JSValue T
  | .syncThrow v => .error v
  | .resolve t => .ok t
  | .reject v => .error v

/-- The deferred-factory wrapper to(asyncFn, defaultValue?). The outer
Except layer records whether the returned promise itself rejects: a
secondary raise inside the catch block (from String) escapes the wrapper. -/
def «to» {T : Type} (asyncFn : AsyncOutcome T) (defaultValue : Option T) :
    Except JSValue (DoResult T) :=
  match runAsync asyncFn with
  | .ok result => .ok (none, some result)
  | .error e =>
      match normalizeFailure e with
      | .ok errorInstance => .ok (some errorInstance, defaultValue)
      | .error secondary => .error secondary

/-- Behaviour of the synchronous thunk passed to toSync: it returns a
value or raises a signal. -/
def toSync {T : Type} (fn : Except JSValue T) (defaultValue : Option T) :
    Except JSValue (DoResult T) :=
  match fn with
  | .ok result => .ok (none, some result)
  | .error e =>
      match normalizeFailure e with
      | .ok errorInstance => .ok (some errorInstance, defaultValue)
      | .error secondary => .error secondary

/-- Settlement of an already-constructed promise handed to toPromise. -/
inductive PromiseOutcome (T : Type) where
  | resolve (t : T)
  | reject (v : JSValue)
deriving DecidableEq, Repr

/-- The promise-value wrapper toPromise(promise, defaultValue?). -/
def toPromise {T : Type} (promise : PromiseOutcome T) (defaultValue : Option T) :
    Except JSValue (DoResult T) :=
  match promise with
  | .resolve result => .ok (none, some result)
  | .reject e =>
      match normalizeFailure e with
      | .ok errorInstance => .ok (some errorInstance, defaultValue)
      | .error secondary => .error secondary

/-- A factory whose deferred computation has the same eventual outcome as
a given already-constructed promise. -/
def liftPromise {T : Type} : PromiseOutcome T → AsyncOutcome T
  | .resolve t => .resolve t
  | .reject v => .reject v

/-! Helper lemmas shared by the claim theorems. -/

/-- On a value that is not an Error instance, normalization is exactly the
string-wrapping branch. -/
lemma normalizeFailure_not_error (v : JSValue) (hv : isErrorInstance v = false) :
    normalizeFailure v = (jsToString v).map (fun s => ⟨s, []⟩) := by
  cases v
  case error e => exact absurd hv (by simp [isErrorInstance])
  all_goals rfl

/-- Whenever the platform stringification of the raised value succeeds,
normalization succeeds. -/
lemma normalizeFailure_ok_of_string_ok (v : JSValue) (s : String)
    (h : jsToString v = Except.ok s) : ∃ f, normalizeFailure v = Except.ok f := by
  cases v with
  | error e => exact ⟨e, rfl⟩
  | obj id t =>
      cases t with
      | none => simp [jsToString] at h
      | some s2 =>
          exact ⟨⟨s, []⟩,
            by rw [normalizeFailure_not_error (.obj id (some s2)) rfl, h]; rfl⟩
  | undef =>
      exact ⟨⟨s, []⟩, by rw [normalizeFailure_not_error .undef rfl, h]; rfl⟩
  | null =>
      exact ⟨⟨s, []⟩, by rw [normalizeFailure_not_error .null rfl, h]; rfl⟩
  | bool b =>
      exact ⟨⟨s, []⟩, by rw [normalizeFailure_not_error (.bool b) rfl, h]; rfl⟩
  | num n =>
      exact ⟨⟨s, []⟩, by rw [normalizeFailure_not_error (.num n) rfl, h]; rfl⟩
  | str s2 =>
      exact ⟨⟨s, []⟩, by rw [normalizeFailure_not_error (.str s2) rfl, h]; rfl⟩

/-- C1: for every wrapped operation raising or rejecting with a signal s
whose normalization yields f, each of the three wrappers (the deferred
wrapper on both failure modes, the synchronous wrapper, and the promise
wrapper) returns the tuple (f, fallback), where the value slot holds the
caller-supplied fallback when one was passed (some d) and is absent
(undefined, none) otherwise. -/
theorem wrappers_failure_tuple {T : Type} (s : JSValue) (f : JSError)
    (d : Option T) (h : normalizeFailure s = Except.ok f) :
    «to» (AsyncOutcome.reject s) d = Except.ok (some f, d) ∧
      «to» (AsyncOutcome.syncThrow s) d = Except.ok (some f, d) ∧
      toSync (Except.error s) d = Except.ok (some f, d) ∧
      toPromise (PromiseOutcome.reject s) d = Except.ok (some f, d) := by
  refine ⟨?_, ?_, ?_, ?_⟩ <;> simp [«to», toSync, toPromise, runAsync, h]

/-- Witness for C1 at the concrete signal "boom" with fallback 7. -/
theorem wrappers_failure_tuple_witness :
    normalizeFailure (JSValue.str "boom") = Except.ok ⟨"boom", []⟩ ∧
      («to» (AsyncOutcome.reject (JSValue.str "boom")) (some 7) =
          Except.ok (some ⟨"boom", []⟩, some 7) ∧
        «to» (AsyncOutcome.syncThrow (JSValue.str "boom")) (some 7) =
          Except.ok (some ⟨"boom", []⟩, some 7) ∧
        toSync (Except.error (JSValue.str "boom")) (some 7) =
          Except.ok (some ⟨"boom", []⟩, some 7) ∧
        toPromise (PromiseOutcome.reject (JSValue.str "boom")) (some 7) =
          Except.ok (some ⟨"boom", []⟩, some 7)) :=
  ⟨rfl, @wrappers_failure_tuple Nat (JSValue.str "boom") ⟨"boom", []⟩ (some 7) rfl⟩

/-- C2: for every wrapped operation returning normally or settling
successfully with a value v, each of the three wrappers returns the tuple
(null, v): the failure slot is none and the value slot is exactly the
value v produced by the operation, untouched. -/
theorem wrappers_success_tuple {T : Type} (v : T) (d : Option T) :
    «to» (AsyncOutcome.resolve v) d = Except.ok (none, some v) ∧
      toSync (Except.ok v) d = Except.ok (none, some v) ∧
      toPromise (PromiseOutcome.resolve v) d = Except.ok (none, some v) :=
  ⟨rfl, rfl, rfl⟩

/-- C3 counterexample: for an object whose conversion to a primitive
fails, normalization itself raises a TypeError instead of falling back to
a placeholder message, so normalization is not total and not non-raising. -/
theorem normalizeFailure_raises_on_unstringifiable :
    normalizeFailure (JSValue.obj 0 none) =
      Except.error
        (JSValue.error ⟨"Cannot convert object to primitive value", []⟩) := rfl

/-- C3 amended: normalization never raises for every raised value whose
platform stringification succeeds (it does for all primitives, Error
instances, and stringifiable objects, cyclic ones included); there is no
placeholder fallback for the remaining unstringifiable objects. -/
theorem normalizeFailure_total_on_stringifiable (v : JSValue) (s : String)
    (h : jsToString v = Except.ok s) : ∃ f, normalizeFailure v = Except.ok f :=
  normalizeFailure_ok_of_string_ok v s h

/-- Witness for the amended C3 at a cyclic plain object, whose platform
stringification succeeds with the default object conversion text. -/
theorem normalizeFailure_total_on_stringifiable_witness :
    jsToString (JSValue.obj 5 (some "[object Object]")) =
        Except.ok "[object Object]" ∧
      ∃ f, normalizeFailure (JSValue.obj 5 (some "[object Object]")) =
        Except.ok f :=
  ⟨rfl,
    normalizeFailure_total_on_stringifiable
      (JSValue.obj 5 (some "[object Object]")) "[object Object]" rfl⟩

/-- C4 counterexample: when the factory synchronously raises an object
whose stringification fails, the deferred wrapper itself raises (its
promise rejects with the secondary TypeError), so the wrapper does not
never-raise. -/
theorem to_raises_on_unstringifiable :
    «to» (AsyncOutcome.syncThrow (JSValue.obj 0 none)) (none : Option Nat) =
      Except.error
        (JSValue.error ⟨"Cannot convert object to primitive value", []⟩) := rfl

/-- C4 amended: a failure raised synchronously while invoking the factory
and a failure signalled by later rejection of the produced promise are
handled identically by the deferred wrapper (the same code path, for every
signal), and whenever the signal normalizes to f both land as (f,
fallback) without the wrapper raising. -/
theorem to_unifies_syncThrow_and_reject {T : Type} (v : JSValue)
    (d : Option T) :
    «to» (AsyncOutcome.syncThrow v) d = «to» (AsyncOutcome.reject v) d ∧
      ∀ f, normalizeFailure v = Except.ok f →
        «to» (AsyncOutcome.syncThrow v) d = Except.ok (some f, d) ∧
          «to» (AsyncOutcome.reject v) d = Except.ok (some f, d) := by
  refine ⟨rfl, fun f h => ⟨?_, ?_⟩⟩ <;> simp [«to», runAsync, h]

/-- Witness for the amended C4 at the raised number 42 with no fallback. -/
theorem to_unifies_syncThrow_and_reject_witness :
    normalizeFailure (JSValue.num 42) = Except.ok ⟨"42", []⟩ ∧
      «to» (AsyncOutcome.syncThrow (JSValue.num 42)) (none : Option String) =
          Except.ok (some ⟨"42", []⟩, none) ∧
        «to» (AsyncOutcome.reject (JSValue.num 42)) (none : Option String) =
          Except.ok (some ⟨"42", []⟩, none) :=
  ⟨rfl,
    (@to_unifies_syncThrow_and_reject String (JSValue.num 42) none).2
      ⟨"42", []⟩ rfl⟩

/-- C5 counterexample: at an unstringifiable raised object, all three
wrappers let the secondary TypeError cross out to the caller instead of
materializing the failure as data. -/
theorem wrappers_raise_on_unstringifiable :
    toSync (Except.error (JSValue.obj 1 none)) (none : Option Nat) =
        Except.error
          (JSValue.error ⟨"Cannot convert object to primitive value", []⟩) ∧
      «to» (AsyncOutcome.reject (JSValue.obj 1 none)) (none : Option Nat) =
        Except.error
          (JSValue.error ⟨"Cannot convert object to primitive value", []⟩) ∧
      toPromise (PromiseOutcome.reject (JSValue.obj 1 none))
          (none : Option Nat) =
        Except.error
          (JSValue.error ⟨"Cannot convert object to primitive value", []⟩) :=
  ⟨rfl, rfl, rfl⟩

/-- C5 amended: no raise or rejection crosses out of to, toSync or
toPromise for any successful operation, and for any raised signal whose
platform stringification succeeds (Error instances included); the failure
is materialized in the returned tuple. -/
theorem wrappers_never_raise_on_stringifiable {T : Type} (v : JSValue)
    (d : Option T) (t : T) (s : String) (h : jsToString v = Except.ok s) :
    (∃ r, «to» (AsyncOutcome.syncThrow v) d = Except.ok r) ∧
      (∃ r, «to» (AsyncOutcome.reject v) d = Except.ok r) ∧
      (∃ r, toSync (Except.error v) d = Except.ok r) ∧
      (∃ r, toPromise (PromiseOutcome.reject v) d = Except.ok r) ∧
      «to» (AsyncOutcome.resolve t) d = Except.ok (none, some t) ∧
      toSync (Except.ok t) d = Except.ok (none, some t) ∧
      toPromise (PromiseOutcome.resolve t) d = Except.ok (none, some t) := by
  obtain ⟨f, hf⟩ := normalizeFailure_ok_of_string_ok v s h
  exact ⟨⟨(some f, d), by simp [«to», runAsync, hf]⟩,
    ⟨(some f, d), by simp [«to», runAsync, hf]⟩,
    ⟨(some f, d), by simp [toSync, hf]⟩,
    ⟨(some f, d), by simp [toPromise, hf]⟩, rfl, rfl, rfl⟩

/-- Witness for the amended C5 at a rejected null signal and the success
value true. -/
theorem wrappers_never_raise_witness :
    jsToString JSValue.null = Except.ok "null" ∧
      ((∃ r, «to» (AsyncOutcome.syncThrow JSValue.null) (none : Option Bool) =
            Except.ok r) ∧
        (∃ r, «to» (AsyncOutcome.reject JSValue.null) (none : Option Bool) =
            Except.ok r) ∧
        (∃ r, toSync (Except.error JSValue.null) (none : Option Bool) =
            Except.ok r) ∧
        (∃ r, toPromise (PromiseOutcome.reject JSValue.null)
            (none : Option Bool) = Except.ok r) ∧
        «to» (AsyncOutcome.resolve true) (none : Option Bool) =
          Except.ok (none, some true) ∧
        toSync (Except.ok true) (none : Option Bool) =
          Except.ok (none, some true) ∧
        toPromise (PromiseOutcome.resolve true) (none : Option Bool) =
          Except.ok (none, some true)) :=
  ⟨rfl, @wrappers_never_raise_on_stringifiable Bool JSValue.null none true
    "null" rfl⟩

/-- C6: every raised signal that is not an Error instance is wrapped in a
new Error whose message is the platform stringification of the signal; in
particular a raised plain string yields a failure whose message equals
that string, and a raised number yields a failure whose message is its
decimal text. -/
theorem normalizeFailure_stringifies_non_errors :
    (∀ s, normalizeFailure (JSValue.str s) = Except.ok ⟨s, []⟩) ∧
      (∀ n : Int, normalizeFailure (JSValue.num n) =
        Except.ok ⟨toString n, []⟩) ∧
      ∀ (v : JSValue) (s : String), isErrorInstance v = false →
        jsToString v = Except.ok s → normalizeFailure v = Except.ok ⟨s, []⟩ :=
  ⟨fun _ => rfl, fun _ => rfl, fun v s hv hs => by
    rw [normalizeFailure_not_error v hv, hs]; rfl⟩

/-- Witness for C6 at the raised signal true, whose stringification is
the text true. -/
theorem normalizeFailure_stringifies_non_errors_witness :
    isErrorInstance (JSValue.bool true) = false ∧
      jsToString (JSValue.bool true) = Except.ok "true" ∧
      normalizeFailure (JSValue.bool true) = Except.ok ⟨"true", []⟩ :=
  ⟨rfl, rfl,
    normalizeFailure_stringifies_non_errors.2.2 (JSValue.bool true) "true"
      rfl rfl⟩

/-- C7: normalization is the identity on canonical failures: an Error
instance is returned unchanged, extra attached fields included, and
composing normalization with itself (feeding the produced Error back in)
changes nothing for every raised value. -/
theorem normalizeFailure_idempotent :
    (∀ e : JSError, normalizeFailure (JSValue.error e) = Except.ok e) ∧
      ∀ x : JSValue,
        (normalizeFailure x).bind (fun f => normalizeFailure (JSValue.error f)) =
          normalizeFailure x := by
  refine ⟨fun e => rfl, fun x => ?_⟩
  cases h : normalizeFailure x <;> rfl

/-- C8: for a factory producing a deferred computation with the same
eventual outcome as an already-constructed promise, the deferred wrapper
and the promise wrapper produce identical result tuples for every
fallback. -/
theorem to_toPromise_equivalent {T : Type} (p : PromiseOutcome T)
    (d : Option T) : «to» (liftPromise p) d = toPromise p d := by
  cases p <;> rfl

/-- C9: success is classified solely by the absence of a raise, never by
the shape of the produced value: an operation succeeding with an Error
instance or with undefined still yields a null failure slot and that
exact value, not normalized and not replaced by the fallback. -/
theorem wrappers_success_shape_blind (e : JSError) (d : Option JSValue) :
    «to» (AsyncOutcome.resolve (JSValue.error e)) d =
        Except.ok (none, some (JSValue.error e)) ∧
      toSync (Except.ok (JSValue.error e)) d =
        Except.ok (none, some (JSValue.error e)) ∧
      toPromise (PromiseOutcome.resolve (JSValue.error e)) d =
        Except.ok (none, some (JSValue.error e)) ∧
      «to» (AsyncOutcome.resolve JSValue.undef) d =
        Except.ok (none, some JSValue.undef) ∧
      toSync (Except.ok JSValue.undef) d =
        Except.ok (none, some JSValue.undef) ∧
      toPromise (PromiseOutcome.resolve JSValue.undef) d =
        Except.ok (none, some JSValue.undef) :=
  ⟨rfl, rfl, rfl, rfl, rfl, rfl⟩

/-- C10: on failure with a fallback supplied, the value slot of every
wrapper holds exactly the caller's fallback d, unchanged and not
normalized. -/
theorem wrappers_fallback_exact {T : Type} (s : JSValue) (f : JSError)
    (d : T) (h : normalizeFailure s = Except.ok f) :
    «to» (AsyncOutcome.reject s) (some d) = Except.ok (some f, some d) ∧
      «to» (AsyncOutcome.syncThrow s) (some d) = Except.ok (some f, some d) ∧
      toSync (Except.error s) (some d) = Except.ok (some f, some d) ∧
      toPromise (PromiseOutcome.reject s) (some d) =
        Except.ok (some f, some d) := by
  refine ⟨?_, ?_, ?_, ?_⟩ <;> simp [«to», toSync, toPromise, runAsync, h]

/-- Witness for C10: the failing signal 1 with an object fallback; the
value slot holds that very object. -/
theorem wrappers_fallback_exact_witness :
    normalizeFailure (JSValue.num 1) = Except.ok ⟨"1", []⟩ ∧
      («to» (AsyncOutcome.reject (JSValue.num 1))
            (some (JSValue.obj 9 (some "[object Object]"))) =
          Except.ok (some ⟨"1", []⟩,
            some (JSValue.obj 9 (some "[object Object]"))) ∧
        «to» (AsyncOutcome.syncThrow (JSValue.num 1))
            (some (JSValue.obj 9 (some "[object Object]"))) =
          Except.ok (some ⟨"1", []⟩,
            some (JSValue.obj 9 (some "[object Object]"))) ∧
        toSync (Except.error (JSValue.num 1))
            (some (JSValue.obj 9 (some "[object Object]"))) =
          Except.ok (some ⟨"1", []⟩,
            some (JSValue.obj 9 (some "[object Object]"))) ∧
        toPromise (PromiseOutcome.reject (JSValue.num 1))
            (some (JSValue.obj 9 (some "[object Object]"))) =
          Except.ok (some ⟨"1", []⟩,
            some (JSValue.obj 9 (some "[object Object]")))) :=
  ⟨rfl,
    @wrappers_fallback_exact JSValue (JSValue.num 1) ⟨"1", []⟩
      (JSValue.obj 9 (some "[object Object]")) rfl⟩
